import Mathlib

/-!
Shallow embedding of `go-commuter` (src/commutator.go).

The source is a Go library around a `Commuter` interface: a FIFO queue of
type-erased operands (`interface{}`) plus a domain operation `COp` applied to
each operand when the queue is drained.  We embed:

* a Go value as `GoVal` (an integer, or a slice of values — `CollapseQueue`
  passes a whole `[]interface{}` slice to `COp`, so slices must be values);
* the observable state of a Commuter as `CommuterState`: the queue contents
  plus the trace of arguments passed to `COp`, in call order.  `COp` itself is
  an opaque caller-supplied effect; recording its argument trace is the
  faithful observable of the orchestration layer;
* Go run-time faults (integer divide by zero, nil pointer dereference, slice
  bounds, and the spec's EmptyQueueError for popping an empty queue) as an
  `Except RunError` result.

Modelling conventions, stated once:
* no concrete Queue implementation exists in the source (only the interface
  declaration), so `Push`/`Pop`/`EmptyQueue`/`GetQueueLength` are modelled
  from the spec (sections 3 and 4.1): `Push` appends at the tail, `Pop`
  removes the head (FIFO) and fails on an empty queue, `EmptyQueue` detaches
  the whole contents leaving the queue empty;
* the source calls three queue methods by names absent from its own
  interface: `Enqueue` (in `AggregateOp`), `Queue` (in `PCollapseQueue`) and
  `QueueLength` (in `CompressQueue`/`CCompressQueue`).  Following the spec's
  reading, these are modelled as `Push`, `EmptyQueue` (the spec, section 4.3
  step 1, reads the detach as EmptyQueue-equivalent) and `GetQueueLength`;
* Go `int` is modelled as `Int`, with Go's truncated division `Int.tdiv` and
  an explicit divide-by-zero fault;
* concurrency: `PCollapseQueue` spawns one goroutine per slice; the combined
  work handed to the workers is modelled as the list of slices (each worker
  applies `COp` to its slice in order; cross-worker interleaving is not
  modelled, only which operands are applied).
-/

namespace GoCommuter

/-- A Go `interface{}` value as used by this library: either a base datum
(modelled as an integer) or a slice of values (Go `[]interface{}`, which
`CollapseQueue` passes to `COp` whole). -/
inductive GoVal where
  | int : Int → GoVal
  | slice : List GoVal → GoVal

/-- Go run-time faults and the spec's queue error, as one error type. -/
inductive RunError where
  | emptyQueueError : RunError
  | divideByZeroPanic : RunError
  | nilPointerDereferencePanic : RunError
  | sliceBoundsPanic : RunError
deriving DecidableEq

/-- Observable state of a Commuter: the queue contents (head = oldest) and
the trace of arguments passed to `COp`, in call order. -/
structure CommuterState where
  queue : List GoVal
  copCalls : List GoVal

/-- Modelled from the spec: `COp` is an opaque caller-supplied operation on
shared state; the orchestration layer's observable is which argument it is
called with, so applying `COp` appends the argument to the call trace. -/
def COp (v : GoVal) (s : CommuterState) : CommuterState :=
  ⟨s.queue, s.copCalls ++ [v]⟩

/-- Modelled from the spec: `Push` appends an operand at the tail of the
queue (section 3; no concrete Queue exists in the source). -/
def Push (v : GoVal) (s : CommuterState) : CommuterState :=
  ⟨s.queue ++ [v], s.copCalls⟩

/-- Modelled from the spec: `Pop` removes and returns the oldest operand
(FIFO, section 3) and fails with `EmptyQueueError` on an empty queue
(section 4.1). -/
def Pop (s : CommuterState) : Except RunError (GoVal × CommuterState) :=
  match s.queue with
  | [] => Except.error RunError.emptyQueueError
  | v :: t => Except.ok (v, ⟨t, s.copCalls⟩)

/-- Modelled from the spec: `EmptyQueue` atomically detaches and returns the
entire queue contents, leaving the queue empty (section 4.1). -/
def EmptyQueue (s : CommuterState) : List GoVal × CommuterState :=
  (s.queue, ⟨[], s.copCalls⟩)

/-- Modelled from the spec: `GetQueueLength` returns the current count
(section 4.1). -/
def GetQueueLength (s : CommuterState) : Nat :=
  s.queue.length

/-- Source `Dequeue` (commutator.go:126-128): `c.COp(c.Pop())` — pop one
operand and apply `COp` to it. -/
def Dequeue (s : CommuterState) : Except RunError CommuterState := do
  let (v, s1) ← Pop s
  Except.ok (COp v s1)

/-- Source `AggregateOp` (commutator.go:132-134): enqueues the operand
(the source writes `c.Enqueue(i)`; the interface's queueing method is
`Push`).  No `COp` call occurs. -/
def AggregateOp (i : GoVal) (s : CommuterState) : CommuterState :=
  Push i s

/-- Source `CollapseQueue` (commutator.go:138-143):
`q := c.EmptyQueue(); for _, i := range q { c.COp(q) }`.
Note the loop body passes the whole detached slice `q` to `COp`, once per
element of `q` (the loop variable `i` is unused). -/
def CollapseQueue (s : CommuterState) : CommuterState :=
  let qs := EmptyQueue s
  qs.1.foldl (fun st _ => COp (GoVal.slice qs.1) st) qs.2

/-- Go slice expression `q[a:b]` on a detached slice whose capacity equals
its length: panics unless `0 ≤ a ≤ b ≤ len(q)`. -/
def goSlice (q : List GoVal) (a b : Int) : Except RunError (List GoVal) :=
  if 0 ≤ a ∧ a ≤ b ∧ b ≤ (q.length : Int) then
    Except.ok ((q.drop a.toNat).take (b - a).toNat)
  else
    Except.error RunError.sliceBoundsPanic

/-- Source `PCollapseQueue` (commutator.go:151-165 and 172-190; both
variants share this partition logic):
`l := c.GetQueueLength(); s := l / numWorkers; q := c.Queue();
for i := 0; i < s; i++ { go worker(q[i*s : (i+1)*s]) }`.
Go integer division panics when `numWorkers` is 0.  `c.Queue()` is read as
the EmptyQueue-style detach (spec section 4.3 step 1).  The loop bound is
`s` (the slice size), exactly as in the source.  The result pairs the state
after the detach with the list of slices handed to the spawned workers;
each worker applies `COp` to every operand of its slice. -/
def PCollapseQueue (numWorkers : Int) (s : CommuterState) :
    Except RunError (CommuterState × List (List GoVal)) :=
  if numWorkers = 0 then Except.error RunError.divideByZeroPanic
  else
    let l : Int := (GetQueueLength s : Int)
    let sz : Int := l.tdiv numWorkers
    let qs := EmptyQueue s
    do
      let slices ← (List.range sz.toNat).mapM
        (fun i => goSlice qs.1 ((i : Int) * sz) (((i : Int) + 1) * sz))
      Except.ok (qs.2, slices)

/-- Body of the `for c.QueueLength() > desiredLength { c.Dequeue() }` loop of
the sequential `CompressQueue` (commutator.go:197-201), structurally
recursive on the queue contents: while the length exceeds `d`, pop the head
and apply `COp`; a `Dequeue` reached with an empty queue pops the empty
queue and fails. -/
def compressLoop (d : Int) (calls : List GoVal) :
    List GoVal → Except RunError CommuterState
  | [] =>
      if (0 : Int) > d then Except.error RunError.emptyQueueError
      else Except.ok ⟨[], calls⟩
  | v :: t =>
      if ((v :: t).length : Int) > d then compressLoop d (calls ++ [v]) t
      else Except.ok ⟨v :: t, calls⟩

namespace Commuter

/-- Source sequential `CompressQueue` (commutator.go:197-201, duplicated at
211-215): dequeues while `QueueLength() > desiredLength`. -/
def CompressQueue (desiredLength : Int) (s : CommuterState) :
    Except RunError CommuterState :=
  compressLoop desiredLength s.copCalls s.queue

end Commuter

/-- Source `CCompressQueue` (commutator.go:223-237):
`numOps := c.QueueLength() - desiredLength; var j *int; *j = 0; ...`.
The write `*j = 0` dereferences the nil pointer `j`, so every call panics
before any worker goroutine is spawned; the worker loop in the source is
unreachable. -/
def CCompressQueue (desiredLength : Int) (numWorkers : Int)
    (s : CommuterState) : Except RunError CommuterState :=
  let numOps : Int := (GetQueueLength s : Int) - desiredLength
  let _ := numOps
  let _ := numWorkers
  Except.error RunError.nilPointerDereferencePanic

namespace CommuterWithCommutator

/-- One merge round of `CommuterWithCommutator.CompressQueue`
(commutator.go:79-81): `i1 := Pop(); i2 := Pop(); Push(Commutator(i1, i2))`.
`COp` is not called. -/
def round (comm : GoVal → GoVal → GoVal) (s : CommuterState) :
    Except RunError CommuterState := do
  let (i1, s1) ← Pop s
  let (i2, s2) ← Pop s1
  Except.ok (Push (comm i1 i2) s2)

/-- `numOps` successive merge rounds. -/
def rounds (comm : GoVal → GoVal → GoVal) :
    Nat → CommuterState → Except RunError CommuterState
  | 0, s => Except.ok s
  | Nat.succ n, s => round comm s >>= rounds comm n

/-- Source `CommuterWithCommutator.CompressQueue` (commutator.go:77-83):
`for i := 0; i < numOps; i++` performs one merge round per iteration
(no iterations when `numOps ≤ 0`). -/
def CompressQueue (comm : GoVal → GoVal → GoVal) (numOps : Int)
    (s : CommuterState) : Except RunError CommuterState :=
  rounds comm numOps.toNat s

end CommuterWithCommutator

/-! ## Helper lemmas -/

/-- For a non-negative target `d`, the sequential compression loop succeeds
and pops exactly the first `q.length - d.toNat` operands, applying `COp` to
each in FIFO order. -/
theorem compressLoop_eq (d : Int) (hd : 0 ≤ d) :
    ∀ (q calls : List GoVal),
      compressLoop d calls q =
        Except.ok ⟨q.drop (q.length - d.toNat),
                   calls ++ q.take (q.length - d.toNat)⟩ := by
  intro q
  induction q with
  | nil =>
      intro calls
      have h : ¬ ((0 : Int) > d) := by omega
      simp [compressLoop, h]
  | cons v t ih =>
      intro calls
      by_cases h : ((v :: t).length : Int) > d
      · have hlen : d.toNat ≤ t.length := by
          simp only [List.length_cons] at h
          omega
        have hstep : (v :: t).length - d.toNat = (t.length - d.toNat) + 1 := by
          simp only [List.length_cons]
          omega
        rw [compressLoop, if_pos h, ih, hstep]
        simp [List.append_assoc]
      · have hz : (v :: t).length - d.toNat = 0 := by
          simp only [List.length_cons, gt_iff_lt, not_lt] at h ⊢
          omega
        rw [compressLoop, if_neg h, hz]
        simp

/-- `k` merge rounds on a queue of length at least `2 * k` succeed, shrink
the queue by exactly `k`, and never call `COp`. -/
theorem rounds_length (comm : GoVal → GoVal → GoVal) :
    ∀ (k : Nat) (s : CommuterState), 2 * k ≤ s.queue.length →
      ∃ s2, CommuterWithCommutator.rounds comm k s = Except.ok s2 ∧
        s2.queue.length = s.queue.length - k ∧ s2.copCalls = s.copCalls := by
  intro k
  induction k with
  | zero =>
      intro s _
      exact ⟨s, rfl, by simp, rfl⟩
  | succ n ih =>
      intro s h
      obtain ⟨q, c⟩ := s
      match q, h with
      | i1 :: i2 :: rest, h =>
        have hround : CommuterWithCommutator.round comm ⟨i1 :: i2 :: rest, c⟩ =
            Except.ok ⟨rest ++ [comm i1 i2], c⟩ := rfl
        have hlen : 2 * n ≤ (rest ++ [comm i1 i2]).length := by
          simp only [List.length_append, List.length_cons, List.length_nil]
            at h ⊢
          omega
        obtain ⟨s2, h1, h2, h3⟩ := ih ⟨rest ++ [comm i1 i2], c⟩ hlen
        refine ⟨s2, ?_, ?_, h3⟩
        · show CommuterWithCommutator.round comm ⟨i1 :: i2 :: rest, c⟩ >>=
            CommuterWithCommutator.rounds comm n = Except.ok s2
          rw [hround]
          exact h1
        · have h8 : s2.queue.length = (rest ++ [comm i1 i2]).length - n := h2
          have h9 : 2 * (n + 1) ≤ (i1 :: i2 :: rest).length := h
          show s2.queue.length = (i1 :: i2 :: rest).length - (n + 1)
          simp only [List.length_append, List.length_cons, List.length_nil]
            at h8 h9 ⊢
          omega

/-! ## Claims -/

/-- C1: partition completeness of the concurrent drain fails on the code.
With `L = 10` operands and `numWorkers = 3` (the spec's own example 3), the
slice size is `10 / 3 = 3` and the worker-spawning loop runs `s = 3` times
over slices `[0:3)`, `[3:6)`, `[6:9)`: only 9 of the 10 detached operands are
handed to any worker, and the operand at index 9 is never applied to `COp`. -/
theorem PCollapseQueue_drops_tenth_operand :
    PCollapseQueue 3
        ⟨[GoVal.int 0, GoVal.int 1, GoVal.int 2, GoVal.int 3, GoVal.int 4,
          GoVal.int 5, GoVal.int 6, GoVal.int 7, GoVal.int 8, GoVal.int 9],
         []⟩ =
      Except.ok (⟨[], []⟩,
        [[GoVal.int 0, GoVal.int 1, GoVal.int 2],
         [GoVal.int 3, GoVal.int 4, GoVal.int 5],
         [GoVal.int 6, GoVal.int 7, GoVal.int 8]]) ∧
    ([[GoVal.int 0, GoVal.int 1, GoVal.int 2],
      [GoVal.int 3, GoVal.int 4, GoVal.int 5],
      [GoVal.int 6, GoVal.int 7, GoVal.int 8]] :
        List (List GoVal)).flatten.length = 9 :=
  ⟨rfl, rfl⟩

/-- C2: `CollapseQueue` does not apply `COp` to each operand individually.
On the queue `[3, 4, 5]` it empties the queue but passes the entire detached
slice to `COp` three times, instead of the three single-operand calls the
claim states. -/
theorem CollapseQueue_applies_COp_to_whole_batch :
    CollapseQueue ⟨[GoVal.int 3, GoVal.int 4, GoVal.int 5], []⟩ =
      ⟨[], [GoVal.slice [GoVal.int 3, GoVal.int 4, GoVal.int 5],
            GoVal.slice [GoVal.int 3, GoVal.int 4, GoVal.int 5],
            GoVal.slice [GoVal.int 3, GoVal.int 4, GoVal.int 5]]⟩ ∧
    (CollapseQueue ⟨[GoVal.int 3, GoVal.int 4, GoVal.int 5], []⟩).copCalls ≠
      [GoVal.int 3, GoVal.int 4, GoVal.int 5] :=
  ⟨rfl, by simp [CollapseQueue, EmptyQueue, COp]⟩

/-- C3: no `InvalidWorkerCountError` exists in the code.  With
`numWorkers = 0`, `PCollapseQueue` panics on the integer division
`l / numWorkers`, and `CCompressQueue` panics on its nil-pointer write
`*j = 0`; neither returns an explicit error value. -/
theorem concurrent_ops_zero_workers_panic :
    PCollapseQueue 0 ⟨[GoVal.int 1, GoVal.int 2], []⟩ =
      Except.error RunError.divideByZeroPanic ∧
    CCompressQueue 1 0 ⟨[GoVal.int 1, GoVal.int 2], []⟩ =
      Except.error RunError.nilPointerDereferencePanic :=
  ⟨rfl, rfl⟩

/-- C4: `CCompressQueue` is never a no-op: the write `*j = 0` through the
uninitialized pointer `j` panics on every call, before `numOps` is even
compared to zero.  Here the queue has length 2 and `desiredLength = 5`, so
the claim demands an unchanged queue and no panic; the code panics. -/
theorem CCompressQueue_always_nil_derefs :
    CCompressQueue 5 1 ⟨[GoVal.int 1, GoVal.int 2], []⟩ =
      Except.error RunError.nilPointerDereferencePanic :=
  rfl

namespace Commuter

/-- C5, counterexample: with `desiredLength = -1` and queue `[5]`, the
sequential `CompressQueue` pops the single operand, and then — the length
`0` still exceeding `-1` — dequeues from the empty queue and fails, so it
does not terminate with a queue of length at most `desiredLength`. -/
theorem CompressQueue_negative_target_counterexample :
    Commuter.CompressQueue (-1) ⟨[GoVal.int 5], []⟩ =
      Except.error RunError.emptyQueueError :=
  rfl

/-- C5, amended to non-negative targets: for every `desiredLength ≥ 0`, the
sequential `CompressQueue` succeeds, leaves the queue length at most
`desiredLength`, and is a no-op when the initial length is already at or
below `desiredLength`. -/
theorem CompressQueue_length_law (d : Int) (s : CommuterState) (hd : 0 ≤ d) :
    ∃ s2, Commuter.CompressQueue d s = Except.ok s2 ∧
      (s2.queue.length : Int) ≤ d ∧
      ((s.queue.length : Int) ≤ d → s2 = s) := by
  refine ⟨_, compressLoop_eq d hd s.queue s.copCalls, ?_, ?_⟩
  · simp only [List.length_drop]
    omega
  · intro hle
    have hz : s.queue.length - d.toNat = 0 := by omega
    rw [hz]
    simp

/-- Witness for the amended C5 at `desiredLength = 1` and queue
`[0, 1, 2]`. -/
theorem CompressQueue_length_law_witness :
    (0 : Int) ≤ 1 ∧
    ∃ s2, Commuter.CompressQueue 1
        ⟨[GoVal.int 0, GoVal.int 1, GoVal.int 2], []⟩ = Except.ok s2 ∧
      (s2.queue.length : Int) ≤ 1 ∧
      (((⟨[GoVal.int 0, GoVal.int 1, GoVal.int 2], []⟩ :
          CommuterState).queue.length : Int) ≤ 1 →
        s2 = ⟨[GoVal.int 0, GoVal.int 1, GoVal.int 2], []⟩) :=
  ⟨by decide,
   CompressQueue_length_law 1 ⟨[GoVal.int 0, GoVal.int 1, GoVal.int 2], []⟩
     (by decide)⟩

/-- C10: for every `desiredLength ≥ 0`, the sequential `CompressQueue` only
dequeues while the length strictly exceeds `desiredLength`, so it never pops
an empty queue: the run never produces `EmptyQueueError` (the only source of
that error in the embedding is a `Pop` on an empty queue). -/
theorem CompressQueue_never_pops_empty (d : Int) (s : CommuterState)
    (hd : 0 ≤ d) :
    Commuter.CompressQueue d s ≠ Except.error RunError.emptyQueueError := by
  rw [Commuter.CompressQueue, compressLoop_eq d hd s.queue s.copCalls]
  simp

/-- Witness for C10 at `desiredLength = 0` and queue `[7]`. -/
theorem CompressQueue_never_pops_empty_witness :
    (0 : Int) ≤ 0 ∧
    Commuter.CompressQueue 0 ⟨[GoVal.int 7], []⟩ ≠
      Except.error RunError.emptyQueueError :=
  ⟨by decide, CompressQueue_never_pops_empty 0 ⟨[GoVal.int 7], []⟩ (by decide)⟩

end Commuter

/-- C8: `AggregateOp` appends its operand at the tail of the queue — the
previously queued operands are unchanged and the length grows by exactly
1 — and performs no `COp` call (the call trace is unchanged). -/
theorem AggregateOp_appends_tail_no_COp (i : GoVal) (s : CommuterState) :
    (AggregateOp i s).queue = s.queue ++ [i] ∧
    (AggregateOp i s).queue.length = s.queue.length + 1 ∧
    (AggregateOp i s).copCalls = s.copCalls :=
  ⟨rfl, by simp [AggregateOp, Push], rfl⟩

namespace CommuterWithCommutator

/-- C6: the compressor shrink law.  On a queue of initial length `L` with
`2 * numOps ≤ L`, after any `k ≤ numOps` of the merge rounds of
`CommuterWithCommutator.CompressQueue` the queue length is exactly `L - k`
(so each round shrinks it by exactly 1), and after all `numOps` rounds it is
`L - numOps`. -/
theorem CompressQueue_shrink_law (comm : GoVal → GoVal → GoVal)
    (numOps k : Nat) (s : CommuterState)
    (h : 2 * numOps ≤ s.queue.length) (hk : k ≤ numOps) :
    ∃ s2, CommuterWithCommutator.CompressQueue comm (k : Int) s =
        Except.ok s2 ∧
      s2.queue.length = s.queue.length - k := by
  have h2 : 2 * k ≤ s.queue.length := by omega
  obtain ⟨s2, h1, hlen, _⟩ := rounds_length comm k s h2
  refine ⟨s2, ?_, hlen⟩
  simpa [CommuterWithCommutator.CompressQueue] using h1

/-- Witness for C6: one round (`numOps = k = 1`) on the length-2 queue
`[2, 3]`. -/
theorem CompressQueue_shrink_law_witness :
    2 * 1 ≤ ((⟨[GoVal.int 2, GoVal.int 3], []⟩ :
        CommuterState).queue.length) ∧ 1 ≤ 1 ∧
    ∃ s2, CommuterWithCommutator.CompressQueue (fun a _ => a) ((1 : Nat) : Int)
        ⟨[GoVal.int 2, GoVal.int 3], []⟩ = Except.ok s2 ∧
      s2.queue.length =
        (⟨[GoVal.int 2, GoVal.int 3], []⟩ : CommuterState).queue.length - 1 :=
  ⟨by decide, le_refl 1,
   CompressQueue_shrink_law (fun a _ => a) 1 1
     ⟨[GoVal.int 2, GoVal.int 3], []⟩ (by decide) (le_refl 1)⟩

/-- C9: each merge round of `CommuterWithCommutator.CompressQueue` pops the
two oldest operands in FIFO order (`i1` first, then `i2`) and pushes
`Commutator(i1, i2)` — older operand first — onto the tail; `COp` is never
invoked (the call trace is unchanged).  A one-round `CompressQueue` run does
exactly this. -/
theorem round_pops_fifo_pushes_merge (comm : GoVal → GoVal → GoVal)
    (i1 i2 : GoVal) (rest calls : List GoVal) :
    CommuterWithCommutator.round comm ⟨i1 :: i2 :: rest, calls⟩ =
      Except.ok ⟨rest ++ [comm i1 i2], calls⟩ ∧
    CommuterWithCommutator.CompressQueue comm 1 ⟨i1 :: i2 :: rest, calls⟩ =
      Except.ok ⟨rest ++ [comm i1 i2], calls⟩ :=
  ⟨rfl, rfl⟩

end CommuterWithCommutator

end GoCommuter
